import Mathlib

/-!
Verification development for the SimulacroRestaurante single-page
application.  The JavaScript sources are shallowly embedded: each
service-layer or view-layer function that the specification talks about
is translated into an executable Lean definition, stateful behaviour
(localStorage writes, the in-memory cart) becomes explicit state
passing, and fetch outcomes become an explicit outcome parameter.
-/

namespace SimulacroSPA

/-! ## Data model (spec section 3)

`User` is the backend record `{id, name, email, password, role}`.
`StoredUser` is the shape of an object persisted under the
`activeUser` localStorage key: the spread copy `{...user}` carries the
password along as an optional field, and `delete sessionUser.password`
turns it into `none`. -/

structure User where
  id : Nat
  name : String
  email : String
  password : String
  role : String
deriving Repr, DecidableEq

structure StoredUser where
  id : Nat
  name : String
  email : String
  role : String
  password : Option String
deriving Repr, DecidableEq

structure Product where
  id : Nat
  name : String
  price : Rat
  category : String
  img : String
  description : String
  stock : Nat
deriving Repr, DecidableEq

/-! ## Fetch outcomes

The views and services interact with the mock backend through `fetch`.
A call either resolves with an ok response, resolves with a non-2xx
status (`response.ok` false), or rejects (network failure). -/

inductive Fetch
  | ok
  | httpFail
  | netFail
deriving Repr, DecidableEq

/-! ## authService.js -/

/-- `GET /users?email=...`: json-server returns the users whose email
field equals the query value. -/
def serverUsersByEmail (db : List User) (email : String) : List User :=
  db.filter (fun u => u.email = email)

/-- The spread copy `const sessionUser = { ...user }`. -/
def sessionCopy (u : User) : StoredUser :=
  { id := u.id, name := u.name, email := u.email, role := u.role,
    password := some u.password }

/-- `delete sessionUser.password`. -/
def deletePassword (s : StoredUser) : StoredUser :=
  { s with password := none }

/-- Result of `login`: the returned `{success, user, error}` object
together with the value written to the `activeUser` localStorage key
(`none` when the function performs no write). -/
structure LoginOutcome where
  success : Bool
  user : Option StoredUser
  error : Option String
  stored : Option StoredUser
deriving Repr, DecidableEq

/-- `login(email, password)` from authService.js.  `f` is the outcome of
the `fetch` on `/users?email=...`; a non-ok response throws
`Error de conexión con el servidor` which the surrounding catch turns
into the generic failure, as does a rejected fetch.  On an ok response
`users[0]` is the head of the filtered collection. -/
def login (db : List User) (email pw : String) (f : Fetch) : LoginOutcome :=
  match f with
  | .ok =>
    match (serverUsersByEmail db email).head? with
    | none =>
      { success := false, user := none,
        error := some "Usuario no encontrado", stored := none }
    | some u =>
      if u.password ≠ pw then
        { success := false, user := none,
          error := some "Contraseña incorrecta", stored := none }
      else
        let su := deletePassword (sessionCopy u)
        { success := true, user := some su, error := none, stored := some su }
  | .httpFail =>
    { success := false, user := none,
      error := some "Ocurrió un error inesperado", stored := none }
  | .netFail =>
    { success := false, user := none,
      error := some "Ocurrió un error inesperado", stored := none }

/-- The input object of `register(userData)`. -/
structure RegisterInput where
  name : String
  email : String
  password : String
  role : String
deriving Repr, DecidableEq

/-- Result of `register`: the returned object plus whether a
user-creation POST was issued. -/
structure RegisterOutcome where
  success : Bool
  error : Option String
  posted : Bool
deriving Repr, DecidableEq

/-- `register(userData)` from authService.js, returning the outcome and
the users collection after the call.  `checkFetch` is the outcome of the
duplicate-check `GET /users?email=...` (its `ok` flag is never
inspected, so a non-2xx JSON body without a `length > 0` simply falls
through to the POST); `postFetch` is the outcome of the creation POST;
`nextId` is the id json-server assigns to the created record. -/
def register (db : List User) (inp : RegisterInput) (nextId : Nat)
    (checkFetch postFetch : Fetch) : RegisterOutcome × List User :=
  match checkFetch with
  | .netFail =>
    ({ success := false, error := some "Error al registrar usuario",
       posted := false }, db)
  | .httpFail =>
    registerPost db inp nextId postFetch
  | .ok =>
    if (serverUsersByEmail db inp.email).length > 0 then
      ({ success := false,
         error := some "El correo electrónico ya está registrado",
         posted := false }, db)
    else
      registerPost db inp nextId postFetch
where
  /-- Steps 3-6 of `register`: the `POST /users` and the response
  handling. -/
  registerPost (db : List User) (inp : RegisterInput) (nextId : Nat)
      (postFetch : Fetch) : RegisterOutcome × List User :=
    match postFetch with
    | .ok =>
      let nu : User :=
        { id := nextId, name := inp.name, email := inp.email,
          password := inp.password, role := inp.role }
      ({ success := true, error := none, posted := true }, db ++ [nu])
    | .httpFail =>
      ({ success := false, error := some "No se pudo crear el usuario",
         posted := true }, db)
    | .netFail =>
      ({ success := false, error := some "Error al registrar usuario",
         posted := true }, db)

/-- `getCurrentUser()` reads `activeUser`; `isAdmin()` from
authService.js: true when a session user exists and its role is the
literal `admin`. -/
def isAdminSession (u : Option StoredUser) : Bool :=
  match u with
  | none => false
  | some su => su.role = "admin"

/-! ## views/menu.js — the cart

The cart is `let cart = [...]`, an array of `{product, quantity}`
objects (spec section 3).  The click handlers mutate it; here each
handler becomes a function from cart to cart. -/

structure CartItem where
  product : Product
  quantity : Nat
deriving Repr, DecidableEq

/-- `cart.find(item => item.product.id == productId)` followed by
`existingItem.quantity += 1`: in-place increment of the first line
whose product id matches. -/
def incFirst : List CartItem → Nat → List CartItem
  | [], _ => []
  | i :: rest, pid =>
    if i.product.id = pid then { i with quantity := i.quantity + 1 } :: rest
    else i :: incFirst rest pid

/-- The `decrease` branch of the sidebar click handler: find the first
line with the id; if its quantity is greater than 1 decrement it,
otherwise `cart.splice(itemIndex, 1)` removes the line. -/
def decFirst : List CartItem → Nat → List CartItem
  | [], _ => []
  | i :: rest, pid =>
    if i.product.id = pid then
      if 1 < i.quantity then { i with quantity := i.quantity - 1 } :: rest
      else rest
    else i :: decFirst rest pid

/-- The `remove` branch: `cart.splice(itemIndex, 1)` on the first line
with the id (the handler returns early when `findIndex` gives -1). -/
def removeFirst : List CartItem → Nat → List CartItem
  | [], _ => []
  | i :: rest, pid =>
    if i.product.id = pid then rest
    else i :: removeFirst rest pid

/-- `addToCart(productId)` from menu.js: look the product up in
`allProducts`; missing product leaves the cart unchanged; an existing
line is incremented, otherwise `cart.push({ product, quantity: 1 })`. -/
def addToCart (allProducts : List Product) (cart : List CartItem)
    (pid : Nat) : List CartItem :=
  match allProducts.find? (fun p => p.id = pid) with
  | none => cart
  | some p =>
    if cart.any (fun i => i.product.id = pid) then incFirst cart pid
    else cart ++ [{ product := p, quantity := 1 }]

/-- The cart operations reachable from the menu view's UI: the card's
"Add to order" button, the sidebar's `+`, `-` and `Remove` buttons, and
the `Clear all` button. -/
inductive CartOp
  | add (pid : Nat)
  | increase (pid : Nat)
  | decrease (pid : Nat)
  | remove (pid : Nat)
  | clear
deriving Repr, DecidableEq

def applyOp (allProducts : List Product) (cart : List CartItem) :
    CartOp → List CartItem
  | .add pid => addToCart allProducts cart pid
  | .increase pid => incFirst cart pid
  | .decrease pid => decFirst cart pid
  | .remove pid => removeFirst cart pid
  | .clear => []

def applyOps (allProducts : List Product) (ops : List CartOp)
    (cart : List CartItem) : List CartItem :=
  ops.foldl (applyOp allProducts) cart

/-- The line-item invariant: every line holds at least one unit. -/
def cartInv (cart : List CartItem) : Prop :=
  ∀ i ∈ cart, 1 ≤ i.quantity

instance (cart : List CartItem) : Decidable (cartInv cart) := by
  unfold cartInv; infer_instance

/-! ## views/menu.js — checkout -/

/-- A line of `orderData.items`, copied by value from a cart line. -/
structure OrderLine where
  productId : Nat
  name : String
  price : Rat
  quantity : Nat
deriving Repr, DecidableEq

/-- The `orderData` object built by `handleConfirmOrder`. -/
structure OrderData where
  userId : Nat
  userName : String
  userEmail : String
  items : List OrderLine
  total : Rat
  status : String
deriving Repr, DecidableEq

/-- `orderData` construction: items are mapped from the cart by value,
`total` is `cart.reduce((sum, item) => sum + item.product.price *
item.quantity, 0)`. -/
def buildOrderData (user : StoredUser) (cart : List CartItem) : OrderData :=
  { userId := user.id
    userName := user.name
    userEmail := user.email
    items := cart.map (fun i =>
      { productId := i.product.id, name := i.product.name,
        price := i.product.price, quantity := i.quantity })
    total := cart.foldl (fun s i => s + i.product.price * i.quantity) 0
    status := "pending" }

/-- Observable state after `handleConfirmOrder`: the in-memory cart,
the `shoppingCart` localStorage value, the `#orderMessage` text and
colour, and the order-creation request issued to the API (`none` when
no POST was attempted). -/
structure ConfirmOutcome where
  cart : List CartItem
  storedCart : List CartItem
  message : Option String
  messageColor : Option String
  request : Option OrderData
deriving Repr, DecidableEq

/-- `handleConfirmOrder()` from menu.js.  `storedCart` is the
`shoppingCart` localStorage value on entry (`updateSidebarUI` rewrites
it only when it runs); `createOk` tells whether
`jsonService.createOrder` resolves. -/
def handleConfirmOrder (cart storedCart : List CartItem)
    (user : Option StoredUser) (createOk : Bool) : ConfirmOutcome :=
  if cart.length = 0 then
    { cart := cart, storedCart := storedCart,
      message := some "Add items to cart first.",
      messageColor := some "var(--color-warning)", request := none }
  else
    match user with
    | none =>
      { cart := cart, storedCart := storedCart, message := none,
        messageColor := none, request := none }
    | some u =>
      let od := buildOrderData u cart
      if createOk then
        { cart := [], storedCart := [],
          message := some "Order placed successfully!",
          messageColor := some "var(--color-success)", request := some od }
      else
        { cart := cart, storedCart := storedCart,
          message := some "Error placing order.",
          messageColor := some "var(--color-error)", request := some od }

/-! ## components/Card.js and the menu header

The card template is embedded as a list of markup nodes in document
order; interpolated product data lives inside the nodes, so presence of
a control is membership of its node. -/

inductive Markup
  | badge (category : String)
  | image (src alt : String)
  | productTitle (t : String)
  | productPrice (p : Rat)
  | productDescription (d : String)
  | addToCartButton (dataId : Nat)
  | editProductButton (dataId : Nat)
  | deleteProductButton (dataId : Nat)
  | pageTitle (t : String)
  | addProductButton
deriving Repr, DecidableEq

/-- The internal `data` object Card.js maps the API response to. -/
structure CardData where
  id : Nat
  category : String
  imageUrl : String
  title : String
  price : Rat
  description : String
  stock : Nat
deriving Repr, DecidableEq

def cardData (p : Product) : CardData :=
  { id := p.id, category := p.category, imageUrl := p.img,
    title := p.name, price := p.price, description := p.description,
    stock := p.stock }

/-- `adminControls`: the Edit/Delete block when `isAdmin`, the empty
string otherwise. -/
def adminControls (isAdmin : Bool) (onId : Nat) : List Markup :=
  if isAdmin then [.editProductButton onId, .deleteProductButton onId]
  else []

/-- The `<article class="card product">` template returned by `Card`. -/
def cardMarkup (d : CardData) (isAdmin : Bool) : List Markup :=
  [.badge d.category, .image d.imageUrl d.title, .productTitle d.title,
   .productPrice d.price, .productDescription d.description,
   .addToCartButton d.id] ++ adminControls isAdmin d.id

/-- The `section-header` block of menuView: page title plus the
`+ Add product` button only when `isAdmin`. -/
def menuHeader (isAdmin : Bool) : List Markup :=
  [.pageTitle "Our Menu"] ++ (if isAdmin then [.addProductButton] else [])

/-- menuView's flag: `currentUser && currentUser.role === 'admin'`. -/
def menuIsAdmin (u : Option StoredUser) : Bool :=
  match u with
  | none => false
  | some su => su.role = "admin"

/-! ## router/router.js -/

/-- What an invoked view function does: return content, or throw. -/
inductive ViewResult
  | ok (content : String)
  | throwsError
deriving Repr, DecidableEq

/-- What the router leaves on screen. -/
inductive Rendered
  | view (content : String)
  | error404
deriving Repr, DecidableEq

/-- The keys of the `routes` object. -/
def routesTable : List String :=
  ["#menu", "#login", "#register", "#orders", "#dashboard", "#profile"]

def routeDefined (h : String) : Bool := routesTable.contains h

/-- `window.location.hash || '#register'`: the empty hash is falsy and
defaults to `#register`. -/
def effectiveHash (hash : String) : String :=
  if hash = "" then "#register" else hash

/-- `router()` from router.js.  `exec` gives the outcome of invoking
the view function mapped to a hash; a missing route or a throwing view
lands on `renderError404()`. -/
def routerRun (hash : String) (exec : String → ViewResult) : Rendered :=
  let h := effectiveHash hash
  if routeDefined h then
    match exec h with
    | .ok c => .view c
    | .throwsError => .error404
  else .error404

/-! ## services/jsonService.js

Each method is a function of the HTTP outcome of its one fetch call; a
thrown error becomes `Except.error` carrying the thrown message. -/

/-- A fetch either resolves ok with a parsed body, resolves with a
non-2xx status, or rejects with a network error message. -/
inductive HttpOutcome (α : Type)
  | ok (body : α)
  | httpError (status : Nat)
  | networkFailure (msg : String)
deriving Repr, DecidableEq

namespace JsonService

/-- `getProducts()`: non-ok throws `Error HTTP {status}` inside the try,
and the catch rethrows the fixed generic message for any error. -/
def getProducts (r : HttpOutcome (List Product)) :
    Except String (List Product) :=
  match r with
  | .ok body => .ok body
  | .httpError _ => .error "Could not connect to the Products API."
  | .networkFailure _ => .error "Could not connect to the Products API."

/-- `getProductById(productId)`. -/
def getProductById (r : HttpOutcome Product) : Except String Product :=
  match r with
  | .ok body => .ok body
  | .httpError _ => .error "Could not connect to the Products API."
  | .networkFailure _ => .error "Could not connect to the Products API."

/-- `getProductsIDs()`: calls `getProducts` and maps out the ids; its
own catch again throws the generic Products message. -/
def getProductsIDs (r : HttpOutcome (List Product)) :
    Except String (List Nat) :=
  match getProducts r with
  | .ok ps => .ok (ps.map (fun p => p.id))
  | .error _ => .error "Could not connect to the Products API."

/-- `createProduct(product)`. -/
def createProduct (r : HttpOutcome Product) : Except String Product :=
  match r with
  | .ok body => .ok body
  | .httpError _ => .error "Could not connect to the Products API."
  | .networkFailure _ => .error "Could not connect to the Products API."

/-- `updateProduct(productId, updates)`. -/
def updateProduct (r : HttpOutcome Product) : Except String Product :=
  match r with
  | .ok body => .ok body
  | .httpError _ => .error "Could not connect to the Products API."
  | .networkFailure _ => .error "Could not connect to the Products API."

/-- `deleteProduct(id)`: no try/catch — a non-ok response throws the
fixed Spanish message, a rejected fetch propagates unchanged. -/
def deleteProduct (r : HttpOutcome Unit) : Except String Bool :=
  match r with
  | .ok _ => .ok true
  | .httpError _ => .error "Error al eliminar producto"
  | .networkFailure msg => .error msg

/-- `createOrder(orderData)`. -/
def createOrder (r : HttpOutcome OrderData) : Except String OrderData :=
  match r with
  | .ok body => .ok body
  | .httpError _ => .error "Could not connect to the Orders API."
  | .networkFailure _ => .error "Could not connect to the Orders API."

/-- `getOrderById(orderId)`: the catch block does `throw error`, so a
non-ok response surfaces as the id-specific message thrown inside the
try and a rejected fetch surfaces as the fetch's own error. -/
def getOrderById (orderId : Nat) (r : HttpOutcome OrderData) :
    Except String OrderData :=
  match r with
  | .ok body => .ok body
  | .httpError _ =>
    .error ("No se pudo obtener la orden con id " ++ toString orderId)
  | .networkFailure msg => .error msg

end JsonService

/-! ## Concrete data used by the witnesses -/

def anaUser : User :=
  { id := 1, name := "Ana", email := "ana@mail.com",
    password := "1234", role := "admin" }

def luisUser : User :=
  { id := 2, name := "Luis", email := "luis@mail.com",
    password := "abcd", role := "customer" }

def demoUsers : List User := [anaUser, luisUser]

def burgerProduct : Product :=
  { id := 11, name := "Classic Burger", price := (95 : Rat) / 10,
    category := "Burgers", img := "burger.png",
    description := "Beef burger", stock := 5 }

def friesProduct : Product :=
  { id := 12, name := "Fries", price := (35 : Rat) / 10,
    category := "Sides", img := "fries.png",
    description := "Crispy fries", stock := 9 }

def demoProducts : List Product := [burgerProduct, friesProduct]

def anaSession : StoredUser :=
  { id := 1, name := "Ana", email := "ana@mail.com", role := "admin",
    password := none }

/-! ## Theorems -/

/-- C1: `login` succeeds only when the fetched users collection holds a
record with that email and that exact password; in every failing case
the returned object carries an error message and nothing is written to
the `activeUser` session key. -/
theorem login_success_requires_matching_record (db : List User)
    (email pw : String) (f : Fetch) :
    ((login db email pw f).success = true →
      f = Fetch.ok ∧ ∃ u ∈ db, u.email = email ∧ u.password = pw)
    ∧ ((login db email pw f).success = false →
      (login db email pw f).error.isSome = true ∧
        (login db email pw f).stored = none) := by
  constructor
  · intro hs
    cases f with
    | ok =>
      refine ⟨rfl, ?_⟩
      cases hh : (serverUsersByEmail db email).head? with
      | none => simp [login, hh] at hs
      | some u =>
        have hu : u ∈ serverUsersByEmail db email :=
          List.mem_of_mem_head? (hh ▸ rfl)
        have hdb := List.mem_filter.mp hu
        refine ⟨u, hdb.1, by simpa using hdb.2, ?_⟩
        by_cases hp : u.password = pw
        · exact hp
        · simp [login, hh, hp] at hs
    | httpFail => simp [login] at hs
    | netFail => simp [login] at hs
  · intro hs
    cases f with
    | ok =>
      cases hh : (serverUsersByEmail db email).head? with
      | none => simp [login, hh]
      | some u =>
        by_cases hp : u.password = pw
        · simp [login, hh, hp] at hs
        · simp [login, hh, hp]
    | httpFail => simp [login]
    | netFail => simp [login]

/-- Witness for C1 at concrete inputs: a matching record exists when
login succeeds on `demoUsers`, and the failing login leaves an error
and writes no session. -/
theorem login_success_requires_matching_record_witness :
    (Fetch.ok = Fetch.ok ∧
      ∃ u ∈ demoUsers, u.email = "ana@mail.com" ∧ u.password = "1234")
    ∧ ((login demoUsers "ana@mail.com" "wrong" Fetch.ok).error.isSome = true ∧
        (login demoUsers "ana@mail.com" "wrong" Fetch.ok).stored = none) :=
  ⟨(login_success_requires_matching_record demoUsers "ana@mail.com" "1234"
      Fetch.ok).1 (by decide),
   (login_success_requires_matching_record demoUsers "ana@mail.com" "wrong"
      Fetch.ok).2 (by decide)⟩

/-- C9: on a successful login the object persisted under `activeUser`
is the matched user record with its password field deleted and id,
name, email and role unchanged. -/
theorem login_session_strips_password (db : List User) (email pw : String)
    (u : User) (hu : (serverUsersByEmail db email).head? = some u)
    (hpw : u.password = pw) :
    (login db email pw Fetch.ok).stored =
      some { id := u.id, name := u.name, email := u.email, role := u.role,
             password := none } := by
  simp [login, hu, hpw, deletePassword, sessionCopy]

/-- Witness for C9: logging in as the demo admin stores exactly the
password-less copy of her record. -/
theorem login_session_strips_password_witness :
    (login demoUsers "ana@mail.com" "1234" Fetch.ok).stored =
      some { id := anaUser.id, name := anaUser.name, email := anaUser.email,
             role := anaUser.role, password := none } :=
  login_session_strips_password demoUsers "ana@mail.com" "1234" anaUser
    (by decide) (by decide)

/-- C3: a registration request whose email matches an existing user
record is rejected with the duplicate-email error, issues no
user-creation POST, and leaves the users collection unchanged. -/
theorem register_rejects_duplicate_email (db : List User)
    (inp : RegisterInput) (nextId : Nat) (postFetch : Fetch)
    (h : ∃ u ∈ db, u.email = inp.email) :
    (register db inp nextId Fetch.ok postFetch).1.success = false
    ∧ (register db inp nextId Fetch.ok postFetch).1.error =
        some "El correo electrónico ya está registrado"
    ∧ (register db inp nextId Fetch.ok postFetch).1.posted = false
    ∧ (register db inp nextId Fetch.ok postFetch).2 = db := by
  obtain ⟨u, hu, he⟩ := h
  have hmem : u ∈ serverUsersByEmail db inp.email :=
    List.mem_filter.mpr ⟨hu, by simpa using he⟩
  have hlen : 0 < (serverUsersByEmail db inp.email).length :=
    List.length_pos.mpr (List.ne_nil_of_mem hmem)
  simp [register, hlen]

/-- Witness for C3: registering the demo admin's email again is
rejected and the collection is untouched. -/
theorem register_rejects_duplicate_email_witness :
    (register demoUsers
        { name := "Eve", email := "ana@mail.com", password := "x",
          role := "customer" } 3 Fetch.ok Fetch.ok).1.success = false
    ∧ (register demoUsers
        { name := "Eve", email := "ana@mail.com", password := "x",
          role := "customer" } 3 Fetch.ok Fetch.ok).1.error =
        some "El correo electrónico ya está registrado"
    ∧ (register demoUsers
        { name := "Eve", email := "ana@mail.com", password := "x",
          role := "customer" } 3 Fetch.ok Fetch.ok).1.posted = false
    ∧ (register demoUsers
        { name := "Eve", email := "ana@mail.com", password := "x",
          role := "customer" } 3 Fetch.ok Fetch.ok).2 = demoUsers :=
  register_rejects_duplicate_email demoUsers
    { name := "Eve", email := "ana@mail.com", password := "x",
      role := "customer" } 3 Fetch.ok ⟨anaUser, by decide, by decide⟩

/-- C4: confirm-order on an empty cart is rejected client-side: no
order POST, cart and stored cart untouched, only the warning message is
set. -/
theorem confirm_order_empty_cart_rejected (storedCart : List CartItem)
    (user : Option StoredUser) (createOk : Bool) :
    (handleConfirmOrder [] storedCart user createOk).request = none
    ∧ (handleConfirmOrder [] storedCart user createOk).cart = []
    ∧ (handleConfirmOrder [] storedCart user createOk).storedCart = storedCart
    ∧ (handleConfirmOrder [] storedCart user createOk).message =
        some "Add items to cart first."
    ∧ (handleConfirmOrder [] storedCart user createOk).messageColor =
        some "var(--color-warning)" := by
  simp [handleConfirmOrder]

/-- Folding the running total of `handleConfirmOrder`'s reduce equals
the sum over the mapped per-line subtotals. -/
theorem cart_foldl_total_eq_sum (cart : List CartItem) (a : Rat) :
    cart.foldl (fun s i => s + i.product.price * (i.quantity : Rat)) a =
      a + (cart.map (fun i => i.product.price * (i.quantity : Rat))).sum := by
  induction cart generalizing a with
  | nil => simp
  | cons i rest ih => simp [ih, add_assoc]

/-- C8: for a non-empty cart and a logged-in user, the submitted order
totals the sum of price times quantity over the cart lines, and its
items are the cart lines copied by value. -/
theorem confirm_order_total_and_items (cart storedCart : List CartItem)
    (u : StoredUser) (createOk : Bool) (h : cart ≠ []) :
    (handleConfirmOrder cart storedCart (some u) createOk).request =
      some { userId := u.id, userName := u.name, userEmail := u.email,
             items := cart.map (fun i =>
               { productId := i.product.id, name := i.product.name,
                 price := i.product.price, quantity := i.quantity }),
             total := (cart.map (fun i =>
               i.product.price * (i.quantity : Rat))).sum,
             status := "pending" } := by
  have hlen : ¬ cart.length = 0 := by
    simpa [List.length_eq_zero] using h
  cases createOk with
  | true =>
    simp only [handleConfirmOrder, hlen, if_false, if_true]
    simp [buildOrderData, cart_foldl_total_eq_sum]
  | false =>
    simp only [handleConfirmOrder, hlen, if_false]
    simp [buildOrderData, cart_foldl_total_eq_sum]

/-- A concrete two-line cart for the checkout witnesses. -/
def demoCart : List CartItem :=
  [{ product := burgerProduct, quantity := 2 },
   { product := friesProduct, quantity := 1 }]

/-- Witness for C8 on the two-line demo cart. -/
theorem confirm_order_total_and_items_witness :
    (handleConfirmOrder demoCart [] (some anaSession) true).request =
      some { userId := anaSession.id, userName := anaSession.name,
             userEmail := anaSession.email,
             items := demoCart.map (fun i =>
               { productId := i.product.id, name := i.product.name,
                 price := i.product.price, quantity := i.quantity }),
             total := (demoCart.map (fun i =>
               i.product.price * (i.quantity : Rat))).sum,
             status := "pending" } :=
  confirm_order_total_and_items demoCart [] anaSession true (by decide)

/-- C10: when `createOrder` fails the cart in memory and the
`shoppingCart` localStorage value are unchanged, and the cart is
emptied exactly when the order was created successfully. -/
theorem checkout_atomic_on_failure (cart storedCart : List CartItem)
    (u : StoredUser) (createOk : Bool) (h : cart ≠ []) :
    ((handleConfirmOrder cart storedCart (some u) false).cart = cart
      ∧ (handleConfirmOrder cart storedCart (some u) false).storedCart =
          storedCart)
    ∧ (createOk = true →
        (handleConfirmOrder cart storedCart (some u) createOk).cart = []
        ∧ (handleConfirmOrder cart storedCart (some u)
            createOk).storedCart = [])
    ∧ ((handleConfirmOrder cart storedCart (some u) createOk).cart = [] →
        createOk = true) := by
  have hlen : ¬ cart.length = 0 := by
    simpa [List.length_eq_zero] using h
  refine ⟨by simp [handleConfirmOrder, hlen], ?_, ?_⟩
  · intro hc
    subst hc
    simp [handleConfirmOrder, hlen]
  · intro hc
    cases createOk with
    | true => rfl
    | false => simp [handleConfirmOrder, hlen] at hc; exact absurd hc h

/-- Witness for C10 on the two-line demo cart. -/
theorem checkout_atomic_on_failure_witness :
    ((handleConfirmOrder demoCart [] (some anaSession) false).cart = demoCart
      ∧ (handleConfirmOrder demoCart [] (some anaSession) false).storedCart
          = [])
    ∧ (true = true →
        (handleConfirmOrder demoCart [] (some anaSession) true).cart = []
        ∧ (handleConfirmOrder demoCart [] (some anaSession)
            true).storedCart = [])
    ∧ ((handleConfirmOrder demoCart [] (some anaSession) true).cart = [] →
        true = true) :=
  checkout_atomic_on_failure demoCart [] anaSession true (by decide)

/-- Incrementing a line keeps every quantity at least 1. -/
theorem incFirst_preserves_inv (cart : List CartItem) (pid : Nat)
    (h : cartInv cart) : cartInv (incFirst cart pid) := by
  induction cart with
  | nil => simpa [incFirst] using h
  | cons i rest ih =>
    have hi : 1 ≤ i.quantity := h i (List.mem_cons_self i rest)
    have hrest : cartInv rest := fun j hj => h j (List.mem_cons_of_mem i hj)
    by_cases hp : i.product.id = pid
    · intro j hj
      simp only [incFirst, hp, if_true] at hj
      rcases List.mem_cons.mp hj with hj | hj
      · subst hj; show 1 ≤ i.quantity + 1; omega
      · exact hrest j hj
    · intro j hj
      simp only [incFirst, hp, if_false] at hj
      rcases List.mem_cons.mp hj with hj | hj
      · subst hj; exact hi
      · exact ih hrest j hj

/-- Decreasing a line keeps every quantity at least 1: at quantity 1
the handler removes the line rather than storing 0. -/
theorem decFirst_preserves_inv (cart : List CartItem) (pid : Nat)
    (h : cartInv cart) : cartInv (decFirst cart pid) := by
  induction cart with
  | nil => simpa [decFirst] using h
  | cons i rest ih =>
    have hi : 1 ≤ i.quantity := h i (List.mem_cons_self i rest)
    have hrest : cartInv rest := fun j hj => h j (List.mem_cons_of_mem i hj)
    by_cases hp : i.product.id = pid
    · by_cases hq : 1 < i.quantity
      · intro j hj
        simp only [decFirst, hp, hq, if_true] at hj
        rcases List.mem_cons.mp hj with hj | hj
        · subst hj; show 1 ≤ i.quantity - 1; omega
        · exact hrest j hj
      · intro j hj
        simp only [decFirst, hp, hq, if_true, if_false] at hj
        exact hrest j hj
    · intro j hj
      simp only [decFirst, hp, if_false] at hj
      rcases List.mem_cons.mp hj with hj | hj
      · subst hj; exact hi
      · exact ih hrest j hj

/-- Removing a line keeps every quantity at least 1. -/
theorem removeFirst_preserves_inv (cart : List CartItem) (pid : Nat)
    (h : cartInv cart) : cartInv (removeFirst cart pid) := by
  induction cart with
  | nil => simpa [removeFirst] using h
  | cons i rest ih =>
    have hi : 1 ≤ i.quantity := h i (List.mem_cons_self i rest)
    have hrest : cartInv rest := fun j hj => h j (List.mem_cons_of_mem i hj)
    by_cases hp : i.product.id = pid
    · intro j hj
      simp only [removeFirst, hp, if_true] at hj
      exact hrest j hj
    · intro j hj
      simp only [removeFirst, hp, if_false] at hj
      rcases List.mem_cons.mp hj with hj | hj
      · subst hj; exact hi
      · exact ih hrest j hj

/-- Adding to the cart keeps every quantity at least 1: a new line
starts at quantity 1, an existing one is incremented. -/
theorem addToCart_preserves_inv (allProducts : List Product)
    (cart : List CartItem) (pid : Nat) (h : cartInv cart) :
    cartInv (addToCart allProducts cart pid) := by
  unfold addToCart
  cases allProducts.find? (fun p => p.id = pid) with
  | none => exact h
  | some p =>
    by_cases hin : cart.any (fun i => i.product.id = pid)
    · simpa [hin] using incFirst_preserves_inv cart pid h
    · simp only [hin, if_false]
      intro j hj
      rcases List.mem_append.mp hj with hj | hj
      · exact h j hj
      · simp only [List.mem_singleton] at hj
        subst hj; exact le_refl 1

/-- Every cart operation of the menu view preserves the invariant. -/
theorem applyOp_preserves_inv (allProducts : List Product)
    (cart : List CartItem) (op : CartOp) (h : cartInv cart) :
    cartInv (applyOp allProducts cart op) := by
  cases op with
  | add pid => exact addToCart_preserves_inv allProducts cart pid h
  | increase pid => exact incFirst_preserves_inv cart pid h
  | decrease pid => exact decFirst_preserves_inv cart pid h
  | remove pid => exact removeFirst_preserves_inv cart pid h
  | clear => intro j hj; simp [applyOp] at hj

/-- Any operation sequence from an invariant-satisfying cart keeps the
invariant. -/
theorem applyOps_preserves_inv (allProducts : List Product)
    (ops : List CartOp) (cart : List CartItem) (h : cartInv cart) :
    cartInv (applyOps allProducts ops cart) := by
  induction ops generalizing cart with
  | nil => simpa [applyOps] using h
  | cons op rest ih =>
    simpa [applyOps] using
      ih (applyOp allProducts cart op)
        (applyOp_preserves_inv allProducts cart op h)

/-- Decreasing the first line with a given product id when that line
holds exactly one unit removes the line. -/
theorem decFirst_removes_at_one (pre post : List CartItem) (it : CartItem)
    (pid : Nat) (hpre : ∀ j ∈ pre, j.product.id ≠ pid)
    (hit : it.product.id = pid) (hq : it.quantity = 1) :
    decFirst (pre ++ it :: post) pid = pre ++ post := by
  induction pre with
  | nil => simp [decFirst, hit, hq]
  | cons j pre' ih =>
    have hj : j.product.id ≠ pid := hpre j (List.mem_cons_self j pre')
    have hpre' : ∀ k ∈ pre', k.product.id ≠ pid :=
      fun k hk => hpre k (List.mem_cons_of_mem j hk)
    simp [decFirst, hj, ih hpre']

/-- C2: every cart state reachable through the menu view's operations
keeps each line's quantity at least 1; each single operation preserves
the invariant; and decreasing a line holding exactly one unit removes
that line instead of leaving it at zero. -/
theorem cart_quantity_invariant (allProducts : List Product) :
    (∀ (cart : List CartItem) (op : CartOp), cartInv cart →
      cartInv (applyOp allProducts cart op))
    ∧ (∀ ops : List CartOp, cartInv (applyOps allProducts ops []))
    ∧ (∀ (pre post : List CartItem) (it : CartItem) (pid : Nat),
        (∀ j ∈ pre, j.product.id ≠ pid) → it.product.id = pid →
        it.quantity = 1 → decFirst (pre ++ it :: post) pid = pre ++ post) :=
  ⟨fun cart op h => applyOp_preserves_inv allProducts cart op h,
   fun ops => applyOps_preserves_inv allProducts ops []
     (fun j hj => absurd hj (List.not_mem_nil j)),
   fun pre post it pid hpre hit hq =>
     decFirst_removes_at_one pre post it pid hpre hit hq⟩

/-- Witness for C2: a concrete operation run ends with all quantities
at least 1, and decreasing the demo cart's single-unit fries line
removes it. -/
theorem cart_quantity_invariant_witness :
    cartInv (applyOps demoProducts
      [CartOp.add 11, CartOp.add 11, CartOp.add 12, CartOp.decrease 12] [])
    ∧ decFirst ([{ product := burgerProduct, quantity := 2 }] ++
        { product := friesProduct, quantity := 1 } :: []) 12 =
      [{ product := burgerProduct, quantity := 2 }] ++ [] :=
  ⟨(cart_quantity_invariant demoProducts).2.1
     [CartOp.add 11, CartOp.add 11, CartOp.add 12, CartOp.decrease 12],
   (cart_quantity_invariant demoProducts).2.2
     [{ product := burgerProduct, quantity := 2 }] []
     { product := friesProduct, quantity := 1 } 12
     (by decide) (by decide) (by decide)⟩

/-- C5: the card markup holds the Edit and Delete buttons, and the menu
header the Add product button, exactly when the `isAdmin` flag is true;
and menuView computes that flag as true exactly when a session user
exists whose role is the literal `admin`. -/
theorem admin_controls_iff_admin_flag (p : Product) (isAdmin : Bool)
    (u : Option StoredUser) :
    (Markup.editProductButton p.id ∈ cardMarkup (cardData p) isAdmin ↔
      isAdmin = true)
    ∧ (Markup.deleteProductButton p.id ∈ cardMarkup (cardData p) isAdmin ↔
      isAdmin = true)
    ∧ (Markup.addProductButton ∈ menuHeader isAdmin ↔ isAdmin = true)
    ∧ (menuIsAdmin u = true ↔ ∃ su, u = some su ∧ su.role = "admin") := by
  refine ⟨?_, ?_, ?_, ?_⟩
  · cases isAdmin <;> simp [cardMarkup, adminControls, cardData]
  · cases isAdmin <;> simp [cardMarkup, adminControls, cardData]
  · cases isAdmin <;> simp [menuHeader]
  · cases u with
    | none => simp [menuIsAdmin]
    | some su =>
      simp only [menuIsAdmin, decide_eq_true_eq, Option.some.injEq]
      constructor
      · intro h; exact ⟨su, rfl, h⟩
      · rintro ⟨su', heq, h⟩; exact heq ▸ h

/-- C6 counterexample: the empty hash has no entry in the routes table,
yet the router does not render the 404 view — it defaults the hash to
`#register` and renders that view's output. -/
theorem router_empty_hash_counterexample :
    routeDefined "" = false
    ∧ routerRun "" (fun _ => ViewResult.ok "register page") =
        Rendered.view "register page" := by
  constructor
  · rfl
  · rfl

/-- C6 amended: every non-empty hash with no routes entry renders the
404 view (the empty hash instead defaults to `#register`); a routed
view that throws renders the 404 view; a successful view invocation
renders that view's content, never the 404 view. -/
theorem router_not_found_fallback (hash : String)
    (exec : String → ViewResult) :
    (hash ≠ "" → routeDefined hash = false →
      routerRun hash exec = Rendered.error404)
    ∧ (routeDefined (effectiveHash hash) = true →
        exec (effectiveHash hash) = ViewResult.throwsError →
        routerRun hash exec = Rendered.error404)
    ∧ (∀ c, routeDefined (effectiveHash hash) = true →
        exec (effectiveHash hash) = ViewResult.ok c →
        routerRun hash exec = Rendered.view c
        ∧ routerRun hash exec ≠ Rendered.error404) := by
  refine ⟨?_, ?_, ?_⟩
  · intro h1 h2
    have he : effectiveHash hash = hash := if_neg h1
    simp [routerRun, he, h2]
  · intro h1 h2
    simp [routerRun, h1, h2]
  · intro c h1 h2
    refine ⟨by simp [routerRun, h1, h2], ?_⟩
    simp [routerRun, h1, h2]

/-- Witness for the amended C6: an unknown hash renders 404, a route
whose view throws renders 404, and a successful menu view renders its
content. -/
theorem router_not_found_fallback_witness :
    routerRun "#nope" (fun _ => ViewResult.ok "x") = Rendered.error404
    ∧ routerRun "#menu" (fun _ => ViewResult.throwsError) =
        Rendered.error404
    ∧ (routerRun "#menu" (fun _ => ViewResult.ok "menu content") =
        Rendered.view "menu content"
      ∧ routerRun "#menu" (fun _ => ViewResult.ok "menu content") ≠
        Rendered.error404) :=
  ⟨(router_not_found_fallback "#nope" (fun _ => ViewResult.ok "x")).1
      (by decide) (by decide),
   (router_not_found_fallback "#menu"
      (fun _ => ViewResult.throwsError)).2.1 (by decide) rfl,
   (router_not_found_fallback "#menu"
      (fun _ => ViewResult.ok "menu content")).2.2 "menu content"
      (by decide) rfl⟩

/-- C7 counterexample: in `getOrderById` a non-2xx response and a
network failure throw different errors — the id-specific message versus
the fetch's own message — so the two failure causes are
distinguishable, contrary to the claim. -/
theorem service_failures_distinguishable_counterexample :
    JsonService.getOrderById 7 (HttpOutcome.httpError 404) =
      Except.error "No se pudo obtener la orden con id 7"
    ∧ JsonService.getOrderById 7
        (HttpOutcome.networkFailure "Failed to fetch") =
      Except.error "Failed to fetch"
    ∧ JsonService.getOrderById 7 (HttpOutcome.httpError 404) ≠
      JsonService.getOrderById 7
        (HttpOutcome.networkFailure "Failed to fetch") := by
  refine ⟨rfl, rfl, ?_⟩
  intro h
  simp only [JsonService.getOrderById, Except.error.injEq] at h
  exact absurd h (by decide)

/-- C7 amended: getProducts, getProductById, getProductsIDs,
createProduct, updateProduct and createOrder throw the same
per-operation generic error on a non-2xx response as on a network
failure; deleteProduct and getOrderById instead distinguish the causes,
the former propagating the network failure unchanged and the latter
rethrowing the cause-specific error. -/
theorem service_failure_unification (status : Nat) (msg : String)
    (orderId : Nat) :
    JsonService.getProducts (HttpOutcome.httpError status) =
      JsonService.getProducts (HttpOutcome.networkFailure msg)
    ∧ JsonService.getProductById (HttpOutcome.httpError status) =
      JsonService.getProductById (HttpOutcome.networkFailure msg)
    ∧ JsonService.getProductsIDs (HttpOutcome.httpError status) =
      JsonService.getProductsIDs (HttpOutcome.networkFailure msg)
    ∧ JsonService.createProduct (HttpOutcome.httpError status) =
      JsonService.createProduct (HttpOutcome.networkFailure msg)
    ∧ JsonService.updateProduct (HttpOutcome.httpError status) =
      JsonService.updateProduct (HttpOutcome.networkFailure msg)
    ∧ JsonService.createOrder (HttpOutcome.httpError status) =
      JsonService.createOrder (HttpOutcome.networkFailure msg)
    ∧ JsonService.deleteProduct (HttpOutcome.httpError status) =
      Except.error "Error al eliminar producto"
    ∧ JsonService.deleteProduct (HttpOutcome.networkFailure msg) =
      Except.error msg
    ∧ JsonService.getOrderById orderId (HttpOutcome.httpError status) =
      Except.error ("No se pudo obtener la orden con id " ++
        toString orderId)
    ∧ JsonService.getOrderById orderId (HttpOutcome.networkFailure msg) =
      Except.error msg :=
  ⟨rfl, rfl, rfl, rfl, rfl, rfl, rfl, rfl, rfl, rfl⟩

end SimulacroSPA
